import Mathlib

set_option maxHeartbeats 1000000

/-!
Verification development for the authentication core of the client-server
triage bot.  The definitions below are a shallow embedding of:

* `src/mcp-server/azure_auth.py` — multi-tenant token validation
  (`MicrosoftIdentityAuthenticator.validate_token`), header parsing
  (`get_token_from_header`, `authenticate_request`) and delegated
  credential issuance (`get_credential`, `get_token_for_resource`);
* `src/server/auth/azure_auth.py` — the token cache of `AzureAuthHelper`
  (`get_access_token`, `_is_token_valid`);
* `src/cli/triage_bot.py` — the 401-retry loop of `call_mcp_function`.

External effects (JWT signature validation, `az` CLI invocations, HTTP
posts) are passed in as explicit function parameters; time is modelled as
`Int` minutes; Python dictionaries are association lists where a later
binding shadows an earlier one, matching dict-assignment overwrite.
-/

/-- Python truthiness of an optional string: `None` and `""` are falsy,
every other string is truthy. -/
def py_truthy (s : Option String) : Bool :=
  match s with
  | none => false
  | some v => v != ""

/-- Python `x or y` for an optional string `x` and a string default `y`. -/
def py_or (x : Option String) (y : String) : String :=
  match x with
  | none => y
  | some v => if v = "" then y else v

/-- Lookup in an association list; the most recent (front) binding wins,
mirroring Python dict assignment where the write below shadows. -/
def lookupA {α : Type} (l : List (String × α)) (k : String) : Option α :=
  match l with
  | [] => none
  | (k2, v) :: rest => if k2 = k then some v else lookupA rest k

/-- Dict assignment `d[k] = v`: the new binding shadows any earlier one. -/
def insertA {α : Type} (l : List (String × α)) (k : String) (v : α) :
    List (String × α) :=
  (k, v) :: l

/-- `leads_chars pat cs` holds when the character list `cs` starts with
`pat` (Python `str.startswith` over the decoded characters). -/
def leads_chars : List Char → List Char → Bool
  | [], _ => true
  | _ :: _, [] => false
  | p :: ps, c :: cs => p = c && leads_chars ps cs

/-- Python `pat in s` over character lists: some suffix starts with `pat`. -/
def has_substr_chars (pat : List Char) : List Char → Bool
  | [] => leads_chars pat []
  | c :: cs => leads_chars pat (c :: cs) || has_substr_chars pat cs

/-- Python `pat in s` for strings. -/
def contains_substr (s pat : String) : Bool :=
  has_substr_chars pat.toList s.toList

/-- Split a character list at every occurrence of a single separator
character, keeping empty segments — Python `str.split(sep)` with an
explicit one-character separator. -/
def split_chars (sep : Char) : List Char → List (List Char)
  | [] => [[]]
  | c :: rest =>
    let r := split_chars sep rest
    if c = sep then [] :: r
    else
      match r with
      | [] => [[c]]
      | h :: t => (c :: h) :: t

/-- Python `s.split(sep)` for a one-character separator. -/
def split_str (sep : Char) (s : String) : List String :=
  (split_chars sep s.toList).map (fun cs => ⟨cs⟩)

/-- Split a character list at the first occurrence of a multi-character
pattern, returning the part before and the part after, or `none` when the
pattern does not occur. -/
def first_split (pat : List Char) : List Char → Option (List Char × List Char)
  | [] => if leads_chars pat [] = true then some ([], []) else none
  | c :: cs =>
    if leads_chars pat (c :: cs) = true then some ([], (c :: cs).drop pat.length)
    else
      match first_split pat cs with
      | some (b, a) => some (c :: b, a)
      | none => none

/-- Python negative index `xs[-2]`: the second-to-last element when the
list has at least two elements; shorter lists raise `IndexError`, modelled
as `none`. -/
def second_to_last (l : List String) : Option String :=
  if h : 2 ≤ l.length then some (l.get ⟨l.length - 2, by omega⟩) else none

namespace McpServer

/-- Configuration of `MicrosoftIdentityAuthenticator.__init__`
(`src/mcp-server/azure_auth.py` lines 94-100): home tenant id, client
id/secret, required scopes and the two feature flags. -/
structure AuthConfig where
  homeTenantId : String
  clientId : String
  clientSecret : String
  requiredScopes : List String
  multiTenantEnabled : Bool
  autoTenantDiscovery : Bool
  deriving DecidableEq

/-- Claims returned by a tenant adapter's `validate_token` on success.
Absent claims are `none` (resp. `[]` for `roles`). -/
structure Claims where
  oid : Option String
  name : Option String
  preferred_username : Option String
  roles : List String
  scp : Option String
  tid : Option String
  iss : Option String
  deriving DecidableEq

/-- The `user_info` dictionary built by `validate_token` (lines 186-195),
extended with the `token` field added by `authenticate_request`. -/
structure UserInfo where
  id : Option String
  name : Option String
  email : Option String
  roles : List String
  scopes : List String
  tenant_id : Option String
  issuer : Option String
  token : Option String
  deriving DecidableEq

/-- The `auth_adapters` dictionary plus an allocation counter: adapters
are identified by the `Nat` allocated at their creation, so two separately
constructed `AzureFunctionsAuthAdapter` objects are distinguishable. -/
structure Registry where
  adapters : List (String × Nat)
  fresh : Nat
  deriving DecidableEq

/-- Registry state after `__init__` (lines 102-110): the home-tenant
adapter (id 0) is created before any request is processed. -/
def init_registry (home : String) : Registry :=
  { adapters := [(home, 0)], fresh := 1 }

/-- The result triple `(is_valid, user_info, error_message)` returned by
`validate_token` and `authenticate_request`. -/
abbrev PyTriple := Bool × Option UserInfo × Option String

/-- Tenant-id extraction from the unverified issuer URL
(`validate_token` lines 137-144): if the issuer mentions
`sts.windows.net` or `login.microsoftonline.com`, take the second-to-last
`/`-separated segment (`split("/")[-2]`); any other shape yields no
tenant.  A too-short issuer raises `IndexError` in the source, which the
enclosing `except` turns into `token_tenant_id = None` — both are `none`
here. -/
def extract_tenant_id (iss : String) : Option String :=
  if contains_substr iss "sts.windows.net" then
    second_to_last (split_str '/' iss)
  else if contains_substr iss "login.microsoftonline.com" then
    second_to_last (split_str '/' iss)
  else none

/-- The tenant id `validate_token` ends up with after its inner
`try`/`except` (lines 130-164): `none` when `jwt.decode` failed
(malformed token, modelled as `decoded = none`) and the extraction result
otherwise. -/
def resolved_tenant (decoded : Option String) : Option String :=
  match decoded with
  | none => none
  | some iss => extract_tenant_id iss

/-- Lines 148-161 of `validate_token`: with multi-tenant mode enabled and
a truthy tenant id different from the home tenant, auto-discovery inserts
a brand-new adapter for that tenant into `auth_adapters` before any
signature check.  Returns the updated registry and the resolved tenant
id. -/
def resolve_phase (cfg : AuthConfig) (reg : Registry) (decoded : Option String) :
    Registry × Option String :=
  match decoded with
  | none => (reg, none)
  | some iss =>
    match extract_tenant_id iss with
    | none => (reg, none)
    | some t =>
      if cfg.multiTenantEnabled = true ∧ t ≠ "" ∧ t ≠ cfg.homeTenantId ∧
          cfg.autoTenantDiscovery = true ∧ lookupA reg.adapters t = none then
        ({ adapters := insertA reg.adapters t reg.fresh, fresh := reg.fresh + 1 },
          some t)
      else (reg, some t)

/-- Adapter choice (lines 166-174): the tenant-specific adapter when the
registry has one, otherwise the home-tenant adapter; `none` models the
`KeyError` raised when even the home adapter is absent. -/
def select_adapter (cfg : AuthConfig) (reg : Registry) (tid : Option String) :
    Option Nat :=
  match tid with
  | some t =>
    match lookupA reg.adapters t with
    | some a => some a
    | none => lookupA reg.adapters cfg.homeTenantId
  | none => lookupA reg.adapters cfg.homeTenantId

/-- Tenant resolution followed by adapter choice: the state of
`validate_token` just before `adapter.validate_token(token)` is called. -/
def adapter_resolution (cfg : AuthConfig) (reg : Registry)
    (decoded : Option String) : Registry × Option Nat :=
  let p := resolve_phase cfg reg decoded
  (p.1, select_adapter cfg p.1 p.2)

/-- `claims.get("scp", "").split(" ")` (line 181). -/
def token_scopes_of (claims : Claims) : List String :=
  split_str ' ' ((claims.scp).getD "")

/-- The scope gate of `validate_token` (lines 179-183): with no required
scopes configured the check is skipped; otherwise at least one required
scope must occur among the token's scopes. -/
def scope_check_passes (required : List String) (claims : Claims) : Bool :=
  if required.isEmpty then true
  else required.any (fun s => (token_scopes_of claims).contains s)

/-- The `user_info` dictionary of lines 186-195. -/
def user_info_of (claims : Claims) : UserInfo :=
  { id := claims.oid
    name := claims.name
    email := claims.preferred_username
    roles := claims.roles
    scopes := match claims.scp with
      | some s => split_str ' ' s
      | none => []
    tenant_id := claims.tid
    issuer := claims.iss
    token := none }

/-- Everything `validate_token` does after an adapter has been chosen
(lines 176-203): run the adapter's signature/claims validation (the
external `microsoft_identity_web` call, passed in as `av`), apply the
scope gate and build `user_info`; adapter failures surface as the
`(False, None, message)` triple produced by the `except AuthError`
handler, and a missing adapter (`KeyError`) by the generic handler. -/
def finish_validation (cfg : AuthConfig) (av : Nat → Except String Claims)
    (chosen : Option Nat) : PyTriple :=
  match chosen with
  | none => (false, none, some "Error validating token: no adapter available")
  | some a =>
    match av a with
    | .error e => (false, none, some ("Token validation error: " ++ e))
    | .ok claims =>
      if scope_check_passes cfg.requiredScopes claims then
        (true, some (user_info_of claims), none)
      else
        (false, none, some "Token does not have any of the required scopes")

/-- `MicrosoftIdentityAuthenticator.validate_token` (lines 119-203).
`decoded` is the outcome of the unverified `jwt.decode`: `none` for a
malformed token, `some iss` for the decoded issuer claim.  Returns the
updated adapter registry and the Python result triple. -/
def validate_token (cfg : AuthConfig) (av : Nat → Except String Claims)
    (reg : Registry) (decoded : Option String) : Registry × PyTriple :=
  let p := adapter_resolution cfg reg decoded
  (p.1, finish_validation cfg av p.2)

/-- The characters of the `"Bearer "` separator used by
`get_token_from_header`. -/
def bearer_sep : List Char := "Bearer ".toList

/-- `auth_header.split("Bearer ")[1]`: the segment strictly between the
first and the second occurrence of `"Bearer "` (the whole remainder when
the separator occurs only once). -/
def token_after_bearer (h : String) : String :=
  match first_split bearer_sep h.toList with
  | some (_, a) =>
    match first_split bearer_sep a with
    | some (b, _) => ⟨b⟩
    | none => ⟨a⟩
  | none => ""

/-- `get_token_from_header` (lines 80-86): `None` when the Authorization
header is absent, empty, or does not start with `"Bearer "`; otherwise
`split("Bearer ")[1]`. -/
def get_token_from_header (authHeader : Option String) : Option String :=
  match authHeader with
  | none => none
  | some h =>
    if h = "" then none
    else if leads_chars bearer_sep h.toList then some (token_after_bearer h)
    else none

/-- `authenticate_request` (lines 337-363), with the singleton
authenticator's `validate_token` passed in as `validator`.  A missing or
falsy token short-circuits to the missing-token triple; on success the
original token is added to `user_info` for later OBO use. -/
def authenticate_request (validator : String → PyTriple)
    (authHeader : Option String) : PyTriple :=
  match get_token_from_header authHeader with
  | none => (false, none, some "No authentication token provided")
  | some tok =>
    if tok = "" then (false, none, some "No authentication token provided")
    else
      match validator tok with
      | (true, ui, _) =>
        (true,
          (match ui with
           | some u => some { u with token := some tok }
           | none => none),
          none)
      | (false, _, errMsg) =>
        (false, none,
          some (match errMsg with
                | some e =>
                  if e = "" then "Invalid or expired authentication token" else e
                | none => "Invalid or expired authentication token"))

/-- The `OnBehalfOfCredential` constructed by `get_credential`
(lines 247-252). -/
structure OboCredential where
  tenant_id : String
  client_id : String
  client_secret : String
  user_assertion : String
  deriving DecidableEq

/-- `get_credential` (lines 215-264): with a truthy user token, build the
on-behalf-of credential for `tenant_id or home`; without one, the raised
`ValueError` is re-raised by the outer handler with a generic message —
there is no service-identity fallback. -/
def get_credential (cfg : AuthConfig) (tenantId userToken : Option String) :
    Except String OboCredential :=
  match userToken with
  | some u =>
    if u = "" then .error "Credential configuration error"
    else
      .ok { tenant_id := py_or tenantId cfg.homeTenantId
            client_id := cfg.clientId
            client_secret := cfg.clientSecret
            user_assertion := u }
  | none => .error "Credential configuration error"

/-- `get_managed_tenant_ids` (lines 53-61) always returns the empty
list — tenants are discovered dynamically, never pre-listed. -/
def get_managed_tenant_ids : List String := []

/-- `get_token_for_resource` (lines 266-311).  `getToken` stands for
`credential.get_token(resource)`, the external token exchange; any
exception anywhere yields `None`. -/
def get_token_for_resource (cfg : AuthConfig)
    (getToken : OboCredential → String → Except String String)
    (resource : String) (tenantId userToken : Option String) : Option String :=
  let proceed : Option String :=
    match get_credential cfg tenantId userToken with
    | .error _ => none
    | .ok cred =>
      match getToken cred resource with
      | .error _ => none
      | .ok t => some t
  if cfg.multiTenantEnabled && py_truthy tenantId then
    match tenantId with
    | some t =>
      if t = cfg.homeTenantId ∨ get_managed_tenant_ids.contains t then proceed
      else none
    | none => proceed
  else proceed

/-- Program counter of one worker thread running the auto-discovery block
of `validate_token` (lines 155-174) for a fixed, newly seen tenant:
`checking` is the membership test `token_tenant_id not in
self.auth_adapters` (line 155), `creating` is the adapter construction
and dict assignment (lines 157-161), `reading` is the later lookup
`self.auth_adapters[token_tenant_id]` (lines 168-170), `done` means the
thread holds its adapter. -/
inductive TPC where
  | checking
  | creating
  | reading
  | done
  deriving DecidableEq

/-- One worker thread: its program counter and, once done, the adapter
object it observed. -/
structure CThread where
  pc : TPC
  obs : Option Nat
  deriving DecidableEq

/-- Shared state of the concurrent first-use scenario: the
`auth_adapters` dict, the allocator for adapter identities, the number of
adapter objects constructed so far, and the per-thread local states. -/
structure CState where
  reg : List (String × Nat)
  fresh : Nat
  created : Nat
  threads : Nat → CThread

/-- Pointwise update of the thread map. -/
def updFn (f : Nat → CThread) (i : Nat) (v : CThread) : Nat → CThread :=
  fun j => if j = i then v else f j

/-- One atomic step of thread `i`.  Python's interpreter lock makes each
dict operation atomic, but threads may interleave between the membership
test, the insert and the final read — exactly the granularity modelled
here. -/
def step_thread (tenant : String) (s : CState) (i : Nat) : CState :=
  match (s.threads i).pc with
  | .checking =>
    let next := if lookupA s.reg tenant = none then TPC.creating else TPC.reading
    { s with threads := updFn s.threads i ⟨next, (s.threads i).obs⟩ }
  | .creating =>
    { reg := insertA s.reg tenant s.fresh
      fresh := s.fresh + 1
      created := s.created + 1
      threads := updFn s.threads i ⟨.reading, (s.threads i).obs⟩ }
  | .reading =>
    { s with threads := updFn s.threads i ⟨.done, lookupA s.reg tenant⟩ }
  | .done => s

/-- Run the threads under an explicit interleaving: each schedule entry
names the thread that takes the next atomic step. -/
def run_sched (tenant : String) (sched : List Nat) (s : CState) : CState :=
  sched.foldl (step_thread tenant) s

/-- Initial state of the first-use scenario: only the home adapter
(id 0, from `__init__`) exists, no dynamic adapter has been constructed,
and every thread is about to run the membership test for the new
tenant. -/
def c1_init : CState :=
  { reg := [("h", 0)], fresh := 1, created := 0,
    threads := fun _ => ⟨.checking, none⟩ }

/-- The fully serialized schedule: threads `k, k+1, ..., k+m-1` each run
their three steps to completion before the next thread starts. -/
def seq_sched : Nat → Nat → List Nat
  | _, 0 => []
  | k, m + 1 => k :: k :: k :: seq_sched (k + 1) m

end McpServer

namespace ServerAuth

/-- Parsed output of `az account get-access-token` as consumed by
`AzureAuthHelper.get_access_token` (`src/server/auth/azure_auth.py`
lines 65-68): the `accessToken` field and the parsed `expiresOn`
timestamp, either of which the response may lack. -/
structure MintResult where
  accessToken : Option String
  expiresOn : Option Int
  deriving DecidableEq

/-- The two dictionaries of `AzureAuthHelper.__init__`:
`_cached_tokens` and `_token_expiry`.  Times are `Int` minutes. -/
structure HelperState where
  cachedTokens : List (String × Option String)
  tokenExpiry : List (String × Int)
  deriving DecidableEq

/-- `cache_key = f"{tenant_id}_{resource}"` (line 50); Python renders
`None` as the string `"None"`. -/
def cache_key (tenantId : Option String) (resource : String) : String :=
  (match tenantId with | none => "None" | some t => t) ++ "_" ++ resource

/-- `buffer_time = timedelta(minutes=5)` (line 96). -/
def buffer_minutes : Int := 5

/-- `AzureAuthHelper._is_token_valid` (lines 86-98): false when the key
is not cached; unconditionally true when it is cached but has no recorded
expiry; otherwise true exactly when the expiry lies strictly more than
the 5-minute buffer in the future. -/
def is_token_valid (st : HelperState) (key : String) (now : Int) : Bool :=
  match lookupA st.cachedTokens key with
  | none => false
  | some _ =>
    match lookupA st.tokenExpiry key with
    | none => true
    | some expiry => decide (now + buffer_minutes < expiry)

/-- `AzureAuthHelper.get_access_token` (lines 46-84).  `mint` stands for
the external `az account get-access-token` invocation: `.error` covers a
non-zero exit code or an exception (no state change, `None` returned);
`.ok` caches the fresh token, records the expiry when the response has
one, and returns the token. -/
def get_access_token (st : HelperState) (now : Int) (tenantId : Option String)
    (resource : String) (mint : Except Unit MintResult) :
    HelperState × Option String :=
  let key := cache_key tenantId resource
  if is_token_valid st key now then
    (st, (lookupA st.cachedTokens key).getD none)
  else
    match mint with
    | .error _ => (st, none)
    | .ok r =>
      let st1 : HelperState :=
        { st with cachedTokens := insertA st.cachedTokens key r.accessToken }
      let st2 : HelperState :=
        match r.expiresOn with
        | some e => { st1 with tokenExpiry := insertA st1.tokenExpiry key e }
        | none => st1
      (st2, r.accessToken)

end ServerAuth

namespace Cli

/-- An HTTP response as seen by `call_mcp_function`
(`src/cli/triage_bot.py` lines 138-172): status code and body. -/
structure Response where
  status : Nat
  body : String
  deriving DecidableEq

/-- Outcome of `call_mcp_function`: the decoded JSON body on success, or
the error dictionary the function returns on any failure. -/
inductive CallResult where
  | ok (body : String)
  | err (msg : String)
  deriving DecidableEq

/-- `call_mcp_function` (lines 138-172).  `initialTok` is the module
global `azure_token`; `acquired` is the `get_azure_token()` result used
when no token is held; `refreshed` is the `get_azure_token()` result
fetched after a 401; `post n` is the response to the (n+1)-th identical
HTTP post.  `raise_for_status` raises for any status of 400 or above,
which the `except` clause converts into an error dictionary.  The pair
returned is the Python result together with the number of posts
issued. -/
def call_mcp_function (initialTok acquired refreshed : Option String)
    (post : Nat → Response) : CallResult × Nat :=
  let tok := if py_truthy initialTok then initialTok else acquired
  if py_truthy tok = false then (.err "Authentication required", 0)
  else
    let r1 := post 0
    if r1.status = 401 then
      if py_truthy refreshed then
        let r2 := post 1
        if 400 ≤ r2.status then (.err "HTTP error", 2) else (.ok r2.body, 2)
      else (.err "Failed to refresh authentication token", 1)
    else if 400 ≤ r1.status then (.err "HTTP error", 1)
    else (.ok r1.body, 1)

end Cli

open McpServer ServerAuth Cli

/-- C2: with an empty or absent `user_token`, `get_token_for_resource`
returns no token and `get_credential` fails with the generic
credential-configuration error, for every resource and tenant id; and a
delegated credential is only ever produced from a non-empty user token,
whose value becomes the credential's user assertion — there is no
fallback to a service identity. -/
theorem obo_requires_user_token (cfg : AuthConfig)
    (getToken : OboCredential → String → Except String String)
    (resource : String) (tenantId userToken : Option String)
    (h : py_truthy userToken = false) :
    get_token_for_resource cfg getToken resource tenantId userToken = none
    ∧ get_credential cfg tenantId userToken =
        Except.error "Credential configuration error"
    ∧ ∀ (ut : Option String) (cred : OboCredential),
        get_credential cfg tenantId ut = Except.ok cred →
        ∃ u, ut = some u ∧ u ≠ "" ∧ cred.user_assertion = u := by
  have hcred : get_credential cfg tenantId userToken =
      Except.error "Credential configuration error" := by
    match userToken, h with
    | none, _ => rfl
    | some v, h =>
      have hv : v = "" := by
        by_contra hv
        simp [py_truthy, hv] at h
      simp [get_credential, hv]
  refine ⟨?_, hcred, ?_⟩
  · unfold get_token_for_resource
    simp only [hcred]
    cases hb : cfg.multiTenantEnabled && py_truthy tenantId with
    | false => simp
    | true =>
      cases tenantId with
      | none => simp
      | some t =>
        by_cases ht : t = cfg.homeTenantId ∨ get_managed_tenant_ids.contains t
          <;> simp [ht]
  · intro ut cred hok
    match ut, hok with
    | some u, hok =>
      by_cases hu : u = ""
      · simp [get_credential, hu] at hok
      · refine ⟨u, rfl, hu, ?_⟩
        simp [get_credential, hu] at hok
        rw [← hok]

/-- Closed instance of `obo_requires_user_token`: at the concrete
configuration below, both calls fail without a user token, and a minted
credential carries exactly the supplied non-empty token. -/
theorem obo_requires_user_token_check :
    get_token_for_resource
        ⟨"home", "cid", "sec", [], true, true⟩
        (fun _ _ => Except.ok "granted") "https://graph.microsoft.com/.default"
        (some "home") none = none
    ∧ get_credential ⟨"home", "cid", "sec", [], true, true⟩ (some "home") none =
        Except.error "Credential configuration error" := by
  have h := obo_requires_user_token ⟨"home", "cid", "sec", [], true, true⟩
    (fun _ _ => Except.ok "granted") "https://graph.microsoft.com/.default"
    (some "home") none (by decide)
  exact ⟨h.1, h.2.1⟩

/-- C3: for a cached credential with a recorded expiry, the cache check
passes exactly when `now` is strictly before `expiry - 5min`; strictly
before that boundary the cached value is served unchanged for any mint
outcome, and at or after the boundary a fresh credential is minted,
returned, and stored over the stale entry (token and expiry both
overwritten). -/
theorem token_cache_expiry_buffer (st : HelperState) (now : Int)
    (tenantId : Option String) (resource : String) (v : Option String)
    (expiry : Int)
    (hc : lookupA st.cachedTokens (cache_key tenantId resource) = some v)
    (he : lookupA st.tokenExpiry (cache_key tenantId resource) = some expiry) :
    (is_token_valid st (cache_key tenantId resource) now = true ↔
      now < expiry - buffer_minutes)
    ∧ (now < expiry - buffer_minutes →
        ∀ mint, get_access_token st now tenantId resource mint = (st, v))
    ∧ (expiry - buffer_minutes ≤ now → ∀ (tok : String) (e2 : Int),
        (get_access_token st now tenantId resource
            (Except.ok ⟨some tok, some e2⟩)).2 = some tok
        ∧ lookupA (get_access_token st now tenantId resource
            (Except.ok ⟨some tok, some e2⟩)).1.cachedTokens
            (cache_key tenantId resource) = some (some tok)
        ∧ lookupA (get_access_token st now tenantId resource
            (Except.ok ⟨some tok, some e2⟩)).1.tokenExpiry
            (cache_key tenantId resource) = some e2) := by
  have hval : is_token_valid st (cache_key tenantId resource) now =
      decide (now + buffer_minutes < expiry) := by
    unfold is_token_valid
    rw [hc, he]
  refine ⟨?_, ?_, ?_⟩
  · rw [hval]
    constructor
    · intro hb
      have := of_decide_eq_true hb
      omega
    · intro hb
      exact decide_eq_true (by omega)
  · intro hb mint
    have hv : is_token_valid st (cache_key tenantId resource) now = true := by
      rw [hval]
      exact decide_eq_true (by omega)
    simp [get_access_token, hv, hc]
  · intro hb tok e2
    have hv : is_token_valid st (cache_key tenantId resource) now = false := by
      rw [hval]
      simp only [decide_eq_false_iff_not]
      omega
    simp [get_access_token, hv, insertA, lookupA]

/-- Closed instance of `token_cache_expiry_buffer`, realising the
10-minute-credential scenario: minted with expiry 10, the entry is served
at time 4 and replaced at time 5 (the inclusive buffer boundary). -/
theorem token_cache_expiry_buffer_check :
    get_access_token ⟨[("t1_r", some "tokA")], [("t1_r", 10)]⟩ 4 (some "t1") "r"
        (Except.error ()) = (⟨[("t1_r", some "tokA")], [("t1_r", 10)]⟩, some "tokA")
    ∧ (get_access_token ⟨[("t1_r", some "tokA")], [("t1_r", 10)]⟩ 5 (some "t1") "r"
        (Except.ok ⟨some "tokB", some 20⟩)).2 = some "tokB"
    ∧ lookupA (get_access_token ⟨[("t1_r", some "tokA")], [("t1_r", 10)]⟩ 5
        (some "t1") "r" (Except.ok ⟨some "tokB", some 20⟩)).1.cachedTokens
        "t1_r" = some (some "tokB") := by
  have h4 := token_cache_expiry_buffer ⟨[("t1_r", some "tokA")], [("t1_r", 10)]⟩
    4 (some "t1") "r" (some "tokA") 10 (by decide) (by decide)
  have h5 := token_cache_expiry_buffer ⟨[("t1_r", some "tokA")], [("t1_r", 10)]⟩
    5 (some "t1") "r" (some "tokA") 10 (by decide) (by decide)
  have hkey : cache_key (some "t1") "r" = "t1_r" := by decide
  have hmint := h5.2.2 (by decide) "tokB" 20
  refine ⟨h4.2.1 (by decide) (Except.error ()), hmint.1, ?_⟩
  rw [← hkey]
  exact hmint.2.1

/-- C10: a cached credential with no recorded expiry is treated as valid
unconditionally — at every later time the cache check passes and
`get_access_token` serves the cached value unchanged, never minting. -/
theorem no_expiry_cached_forever (st : HelperState) (now : Int)
    (tenantId : Option String) (resource : String) (v : Option String)
    (hc : lookupA st.cachedTokens (cache_key tenantId resource) = some v)
    (he : lookupA st.tokenExpiry (cache_key tenantId resource) = none) :
    is_token_valid st (cache_key tenantId resource) now = true
    ∧ ∀ mint, get_access_token st now tenantId resource mint = (st, v) := by
  have hval : is_token_valid st (cache_key tenantId resource) now = true := by
    unfold is_token_valid
    rw [hc, he]
  refine ⟨hval, fun mint => ?_⟩
  simp [get_access_token, hval, hc]

/-- Closed instance of `no_expiry_cached_forever` at times 0 and a very
late 1000000: the expiry-less entry is served both times. -/
theorem no_expiry_cached_forever_check :
    get_access_token ⟨[("None_r", some "tokZ")], []⟩ 0 none "r"
        (Except.error ()) = (⟨[("None_r", some "tokZ")], []⟩, some "tokZ")
    ∧ get_access_token ⟨[("None_r", some "tokZ")], []⟩ 1000000 none "r"
        (Except.ok ⟨some "fresh", some 2000000⟩) =
      (⟨[("None_r", some "tokZ")], []⟩, some "tokZ") := by
  have h0 := no_expiry_cached_forever ⟨[("None_r", some "tokZ")], []⟩ 0 none "r"
    (some "tokZ") (by decide) (by decide)
  have h1 := no_expiry_cached_forever ⟨[("None_r", some "tokZ")], []⟩ 1000000
    none "r" (some "tokZ") (by decide) (by decide)
  exact ⟨h0.2 (Except.error ()), h1.2 (Except.ok ⟨some "fresh", some 2000000⟩)⟩

/-- C4: the scope gate passes every token when no scopes are required,
and otherwise passes exactly when some required scope occurs among the
token's scopes (OR semantics — one match suffices). -/
theorem scope_check_or_semantics (claims : Claims) :
    scope_check_passes [] claims = true
    ∧ ∀ required : List String, required ≠ [] →
        (scope_check_passes required claims = true ↔
          ∃ s, s ∈ required ∧ s ∈ token_scopes_of claims) := by
  constructor
  · rfl
  · intro required hne
    have hie : required.isEmpty = false := by
      cases required with
      | nil => exact absurd rfl hne
      | cons a l => rfl
    simp [scope_check_passes, hie, List.any_eq_true, List.elem_iff]

/-- Closed instance of `scope_check_or_semantics`, realising the three
concrete examples: token scopes `a c` against required `b c` pass, token
scopes `x` against required `b c` fail, and an empty required set passes
regardless of scopes. -/
theorem scope_check_or_semantics_check :
    scope_check_passes ["b", "c"]
        ⟨none, none, none, [], some "a c", none, none⟩ = true
    ∧ scope_check_passes ["b", "c"]
        ⟨none, none, none, [], some "x", none, none⟩ = false
    ∧ scope_check_passes [] ⟨none, none, none, [], some "x", none, none⟩ = true := by
  have hac := (scope_check_or_semantics
    ⟨none, none, none, [], some "a c", none, none⟩).2 ["b", "c"] (by decide)
  have hx := (scope_check_or_semantics
    ⟨none, none, none, [], some "x", none, none⟩).2 ["b", "c"] (by decide)
  have hmt := (scope_check_or_semantics
    ⟨none, none, none, [], some "x", none, none⟩).1
  refine ⟨hac.mpr ⟨"c", by decide, by decide⟩, ?_, hmt⟩
  by_contra hnot
  simp only [Bool.not_eq_false] at hnot
  obtain ⟨s, hs1, hs2⟩ := hx.mp hnot
  have : s = "b" ∨ s = "c" := by
    simpa using hs1
  rcases this with rfl | rfl
  · revert hs2
    decide
  · revert hs2
    decide

/-- C7: a request with no Authorization header, or one not starting with
the `Bearer ` prefix, is rejected with the missing-token message by
`authenticate_request`, whatever the validator does — the result does not
depend on `validator`, so no adapter lookup or validation call can have
been consulted. -/
theorem missing_header_short_circuit (validator : String → PyTriple)
    (authHeader : Option String)
    (h : authHeader = none ∨
      ∃ hv, authHeader = some hv ∧ leads_chars bearer_sep hv.toList = false) :
    authenticate_request validator authHeader =
      (false, none, some "No authentication token provided") := by
  rcases h with rfl | ⟨hv, rfl, hlead⟩
  · rfl
  · simp only [String.toList] at hlead
    by_cases he : hv = ""
    · simp [authenticate_request, get_token_from_header, he]
    · simp [authenticate_request, get_token_from_header, he, hlead]

/-- Closed instances of `missing_header_short_circuit`: an absent header
and a non-Bearer header are both rejected as missing tokens, for a
validator that would accept anything. -/
theorem missing_header_short_circuit_check :
    authenticate_request (fun _ => (true, none, none)) none =
      (false, none, some "No authentication token provided")
    ∧ authenticate_request (fun _ => (true, none, none)) (some "Token abc") =
      (false, none, some "No authentication token provided") := by
  refine ⟨missing_header_short_circuit _ none (Or.inl rfl), ?_⟩
  exact missing_header_short_circuit _ (some "Token abc")
    (Or.inr ⟨"Token abc", rfl, by decide⟩)

/-- C8: `call_mcp_function` posts at most twice in any call; when the
first post yields 401 and the token refresh succeeds, the identical call
is retried exactly once — a second 401 (or any other error status) on the
retry surfaces as an error with no further retry — and when the refresh
fails, the failure surfaces after the single original post. -/
theorem cli_retry_once (initialTok acquired refreshed : Option String)
    (post : Nat → Response) :
    (call_mcp_function initialTok acquired refreshed post).2 ≤ 2
    ∧ (py_truthy (if py_truthy initialTok then initialTok else acquired) = true →
        (post 0).status = 401 →
        (py_truthy refreshed = true →
          (call_mcp_function initialTok acquired refreshed post).2 = 2
          ∧ (400 ≤ (post 1).status →
              call_mcp_function initialTok acquired refreshed post =
                (CallResult.err "HTTP error", 2)))
        ∧ (py_truthy refreshed = false →
            call_mcp_function initialTok acquired refreshed post =
              (CallResult.err "Failed to refresh authentication token", 1))) := by
  unfold call_mcp_function
  by_cases htok : py_truthy (if py_truthy initialTok then initialTok else acquired) = true
  · simp only [htok, Bool.true_eq_false, if_false]
    by_cases h401 : (post 0).status = 401
    · simp only [h401, if_true]
      by_cases href : py_truthy refreshed = true
      · simp only [href, if_true]
        by_cases hretry : 400 ≤ (post 1).status
          <;> simp [hretry]
      · simp only [href, if_false]
        simp only [Bool.not_eq_true] at href
        simp [href]
    · simp only [h401, if_false]
      by_cases herr : 400 ≤ (post 0).status
        <;> simp [herr, h401]
  · simp only [Bool.not_eq_true] at htok
    simp [htok]

/-- Closed instance of `cli_retry_once`: with a held token, a first
response of 401 and a successful refresh, exactly two posts happen; a 401
on the retry surfaces as an error, and a failed refresh surfaces after
one post. -/
theorem cli_retry_once_check :
    (call_mcp_function (some "tok") none (some "tok2")
        (fun _ => ⟨401, ""⟩)).2 = 2
    ∧ call_mcp_function (some "tok") none (some "tok2") (fun _ => ⟨401, ""⟩) =
        (CallResult.err "HTTP error", 2)
    ∧ call_mcp_function (some "tok") none none (fun _ => ⟨401, ""⟩) =
        (CallResult.err "Failed to refresh authentication token", 1) := by
  have h := (cli_retry_once (some "tok") none (some "tok2")
    (fun _ => ⟨401, ""⟩)).2 (by decide) (by decide)
  have hf := (cli_retry_once (some "tok") none none
    (fun _ => ⟨401, ""⟩)).2 (by decide) (by decide)
  exact ⟨(h.1 (by decide)).1, (h.1 (by decide)).2 (by decide), hf.2 (by decide)⟩

/-- C5: issuer-based tenant resolution is total and never raises.  An
issuer mentioning neither recognized host yields no tenant; an issuer
mentioning `sts.windows.net` or `login.microsoftonline.com` yields the
second-to-last `/`-separated segment (with a too-short issuer collapsing
to no tenant, the recovered `IndexError`); a malformed token resolves to
the unknown tenant with the registry untouched; and validation then
simply continues against the home-tenant adapter rather than aborting. -/
theorem tenant_resolution_total (iss : String) :
    (contains_substr iss "sts.windows.net" = false →
      contains_substr iss "login.microsoftonline.com" = false →
      extract_tenant_id iss = none)
    ∧ (contains_substr iss "sts.windows.net" = true ∨
        contains_substr iss "login.microsoftonline.com" = true →
        extract_tenant_id iss = second_to_last (split_str '/' iss))
    ∧ (∀ cfg reg, resolve_phase cfg reg none = (reg, none))
    ∧ (∀ cfg av reg, validate_token cfg av reg none =
        (reg, finish_validation cfg av (lookupA reg.adapters cfg.homeTenantId))) := by
  refine ⟨?_, ?_, fun cfg reg => rfl, fun cfg av reg => rfl⟩
  · intro h1 h2
    simp [extract_tenant_id, h1, h2]
  · intro h
    rcases h with h | h
    · simp [extract_tenant_id, h]
    · by_cases h1 : contains_substr iss "sts.windows.net" = true
        <;> simp [extract_tenant_id, h1, h]

/-- Closed instances of `tenant_resolution_total`: both recognized issuer
shapes resolve to the embedded tenant id, an unrecognized shape and a
shape-mentioning issuer with no path both resolve to no tenant, and a
malformed token leaves the registry unchanged while validation proceeds
with the home adapter. -/
theorem tenant_resolution_total_check :
    extract_tenant_id "https://sts.windows.net/t7/" = some "t7"
    ∧ extract_tenant_id "https://login.microsoftonline.com/t9/v2.0" = some "t9"
    ∧ extract_tenant_id "https://evil.example/x/" = none
    ∧ extract_tenant_id "sts.windows.net" = none
    ∧ resolve_phase ⟨"h", "c", "s", [], true, true⟩ (init_registry "h") none =
        (init_registry "h", none) := by
  have h1 := (tenant_resolution_total "https://sts.windows.net/t7/").2.1
    (Or.inl (by decide))
  have h2 := (tenant_resolution_total "https://login.microsoftonline.com/t9/v2.0").2.1
    (Or.inr (by decide))
  have h3 := (tenant_resolution_total "https://evil.example/x/").1
    (by decide) (by decide)
  have h4 := (tenant_resolution_total "sts.windows.net").2.1 (Or.inl (by decide))
  have h5 := (tenant_resolution_total "").2.2.1 ⟨"h", "c", "s", [], true, true⟩
    (init_registry "h")
  refine ⟨h1.trans (by decide), h2.trans (by decide), h3, h4.trans (by decide), h5⟩

/-- C6: when multi-tenant mode is disabled, or auto-discovery is
disabled, or the tenant could not be resolved from the issuer, no new
adapter is created (the registry is returned unchanged) and validation
falls back to the home-tenant adapter whenever the resolved tenant has no
adapter in the registry; a tenant-specific adapter is used exactly when
the registry already holds one. -/
theorem home_tenant_fallback (cfg : AuthConfig) (av : Nat → Except String Claims)
    (reg : Registry) (decoded : Option String)
    (hdis : cfg.multiTenantEnabled = false ∨ cfg.autoTenantDiscovery = false ∨
      resolved_tenant decoded = none) :
    (validate_token cfg av reg decoded).1 = reg
    ∧ (∀ t, resolved_tenant decoded = some t → lookupA reg.adapters t = none →
        (validate_token cfg av reg decoded).2 =
          finish_validation cfg av (lookupA reg.adapters cfg.homeTenantId))
    ∧ (resolved_tenant decoded = none →
        (validate_token cfg av reg decoded).2 =
          finish_validation cfg av (lookupA reg.adapters cfg.homeTenantId))
    ∧ (∀ t a, resolved_tenant decoded = some t → lookupA reg.adapters t = some a →
        (validate_token cfg av reg decoded).2 = finish_validation cfg av (some a)) := by
  match decoded with
  | none =>
    refine ⟨rfl, ?_, fun _ => rfl, ?_⟩
    · intro t ht
      exact absurd ht (by simp [resolved_tenant])
    · intro t a ht
      exact absurd ht (by simp [resolved_tenant])
  | some iss =>
    have hres : resolved_tenant (some iss) = extract_tenant_id iss := rfl
    match hext : extract_tenant_id iss with
    | none =>
      have hvt : validate_token cfg av reg (some iss) =
          (reg, finish_validation cfg av (lookupA reg.adapters cfg.homeTenantId)) := by
        simp [validate_token, adapter_resolution, resolve_phase, hext,
          select_adapter]
      refine ⟨by rw [hvt], ?_, fun _ => by rw [hvt], ?_⟩
      · intro t ht
        rw [hres, hext] at ht
        exact absurd ht (by simp)
      · intro t a ht
        rw [hres, hext] at ht
        exact absurd ht (by simp)
    | some t0 =>
      have hcond : ¬(cfg.multiTenantEnabled = true ∧ t0 ≠ "" ∧
          t0 ≠ cfg.homeTenantId ∧ cfg.autoTenantDiscovery = true ∧
          lookupA reg.adapters t0 = none) := by
        rcases hdis with hd | hd | hd
        · intro hco
          rw [hco.1] at hd
          cases hd
        · intro hco
          rw [hco.2.2.2.1] at hd
          cases hd
        · rw [hres, hext] at hd
          cases hd
      have hrp : resolve_phase cfg reg (some iss) = (reg, some t0) := by
        simp [resolve_phase, hext, hcond]
      refine ⟨?_, ?_, ?_, ?_⟩
      · simp [validate_token, adapter_resolution, hrp]
      · intro t ht hlk
        rw [hres, hext] at ht
        cases ht
        simp [validate_token, adapter_resolution, hrp, select_adapter, hlk]
      · intro ht
        rw [hres, hext] at ht
        cases ht
      · intro t a ht hlk
        rw [hres, hext] at ht
        cases ht
        simp [validate_token, adapter_resolution, hrp, select_adapter, hlk]

/-- Closed instance of `home_tenant_fallback`: with multi-tenant mode
disabled, a token issued by foreign tenant `t7` leaves the registry
unchanged and is validated against the home adapter (id 0), which rejects
it here. -/
theorem home_tenant_fallback_check :
    (validate_token ⟨"h", "c", "s", [], false, true⟩
        (fun _ => Except.error "signature rejected") (init_registry "h")
        (some "https://sts.windows.net/t7/")).1 = init_registry "h"
    ∧ (validate_token ⟨"h", "c", "s", [], false, true⟩
        (fun _ => Except.error "signature rejected") (init_registry "h")
        (some "https://sts.windows.net/t7/")).2 =
      (false, none, some "Token validation error: signature rejected") := by
  have h := home_tenant_fallback ⟨"h", "c", "s", [], false, true⟩
    (fun _ => Except.error "signature rejected") (init_registry "h")
    (some "https://sts.windows.net/t7/") (Or.inl rfl)
  refine ⟨h.1, ?_⟩
  have h2 := h.2.1 "t7" (by decide) (by decide)
  rw [h2]
  decide

/-- C9 (implicit): with multi-tenant mode and auto-discovery both
enabled, `validate_token` inserts an adapter for the tenant taken from
the unverified issuer before any signature check, and the insertion
survives in the registry even when the adapter then rejects the token —
for every validation outcome the new tenant maps to the freshly created
adapter, and a failing validator still leaves the rejection triple. -/
theorem unverified_discovery_persists (cfg : AuthConfig) (reg : Registry)
    (iss t : String)
    (hmt : cfg.multiTenantEnabled = true) (had : cfg.autoTenantDiscovery = true)
    (hex : extract_tenant_id iss = some t) (hne : t ≠ "")
    (hnh : t ≠ cfg.homeTenantId) (hnew : lookupA reg.adapters t = none) :
    (∀ av, lookupA (validate_token cfg av reg (some iss)).1.adapters t =
      some reg.fresh)
    ∧ ∀ msg, (validate_token cfg (fun _ => Except.error msg) reg (some iss)).2 =
        (false, none, some ("Token validation error: " ++ msg)) := by
  have hrp : resolve_phase cfg reg (some iss) =
      ({ adapters := insertA reg.adapters t reg.fresh, fresh := reg.fresh + 1 },
        some t) := by
    simp [resolve_phase, hex, hmt, hne, hnh, had, hnew]
  constructor
  · intro av
    simp [validate_token, adapter_resolution, hrp, insertA, lookupA]
  · intro msg
    simp [validate_token, adapter_resolution, hrp, select_adapter, insertA,
      lookupA, finish_validation]

/-- Closed instance of `unverified_discovery_persists`: a token whose
unverified issuer names fresh tenant `t7` gets an adapter (id 1)
registered even though the signature check then rejects it. -/
theorem unverified_discovery_persists_check :
    lookupA (validate_token ⟨"h", "c", "s", [], true, true⟩
        (fun _ => Except.error "SignatureInvalid") (init_registry "h")
        (some "https://sts.windows.net/t7/")).1.adapters "t7" = some 1
    ∧ (validate_token ⟨"h", "c", "s", [], true, true⟩
        (fun _ => Except.error "SignatureInvalid") (init_registry "h")
        (some "https://sts.windows.net/t7/")).2 =
      (false, none, some "Token validation error: SignatureInvalid") := by
  have h := unverified_discovery_persists ⟨"h", "c", "s", [], true, true⟩
    (init_registry "h") "https://sts.windows.net/t7/" "t7" rfl rfl (by decide)
    (by decide) (by decide) (by decide)
  exact ⟨h.1 (fun _ => Except.error "SignatureInvalid"), h.2 "SignatureInvalid"⟩

theorem updFn_self (f : Nat → CThread) (i : Nat) (v : CThread) :
    updFn f i v i = v := by
  simp [updFn]

theorem updFn_other (f : Nat → CThread) (i j : Nat) (v : CThread) (h : j ≠ i) :
    updFn f i v j = f j := by
  simp [updFn, h]

theorem updFn_updFn (f : Nat → CThread) (i : Nat) (v w : CThread) :
    updFn (updFn f i v) i w = updFn f i w := by
  funext j
  by_cases h : j = i <;> simp [updFn, h]

theorem lookupA_insertA_self {α : Type} (l : List (String × α)) (k : String)
    (v : α) : lookupA (insertA l k v) k = some v := by
  simp [insertA, lookupA]

/-- Running the three steps of a thread that finds the tenant absent:
it constructs and inserts a fresh adapter and observes it. -/
theorem step_triple_create (tenant : String) (s : CState) (i : Nat)
    (h1 : s.threads i = ⟨TPC.checking, none⟩)
    (h2 : lookupA s.reg tenant = none) :
    run_sched tenant [i, i, i] s =
      { reg := insertA s.reg tenant s.fresh, fresh := s.fresh + 1,
        created := s.created + 1,
        threads := updFn s.threads i ⟨TPC.done, some s.fresh⟩ } := by
  simp [run_sched, List.foldl, step_thread, h1, h2, updFn_self, updFn_updFn,
    lookupA_insertA_self]

/-- Running the three steps of a thread that finds an adapter already
registered: the state is unchanged except that the thread observes the
registered adapter. -/
theorem step_triple_observe (tenant : String) (s : CState) (i a : Nat)
    (h1 : s.threads i = ⟨TPC.checking, none⟩)
    (h2 : lookupA s.reg tenant = some a) :
    run_sched tenant [i, i, i] s =
      { s with threads := updFn s.threads i ⟨TPC.done, some a⟩ } := by
  simp [run_sched, List.foldl, step_thread, h1, h2, updFn_self, updFn_updFn]

/-- Serialized execution from a state where the adapter for `tenant` is
already registered as id 1: every remaining thread observes adapter 1 and
the shared registry and creation count never change. -/
theorem seq_sched_run (tenant : String) :
    ∀ (m k : Nat) (s : CState),
      lookupA s.reg tenant = some 1 →
      (∀ i, k ≤ i → s.threads i = ⟨TPC.checking, none⟩) →
      (run_sched tenant (seq_sched k m) s).reg = s.reg
      ∧ (run_sched tenant (seq_sched k m) s).created = s.created
      ∧ (∀ i, i < k → (run_sched tenant (seq_sched k m) s).threads i = s.threads i)
      ∧ (∀ i, k ≤ i → i < k + m →
          (run_sched tenant (seq_sched k m) s).threads i = ⟨TPC.done, some 1⟩)
      ∧ (∀ i, k + m ≤ i →
          (run_sched tenant (seq_sched k m) s).threads i = ⟨TPC.checking, none⟩) := by
  intro m
  induction m with
  | zero =>
    intro k s hreg hth
    refine ⟨rfl, rfl, fun i _ => rfl, fun i h1 h2 => absurd h2 (by omega), ?_⟩
    intro i hi
    exact hth i (by omega)
  | succ m ih =>
    intro k s hreg hth
    have hsplit : run_sched tenant (seq_sched k (m + 1)) s =
        run_sched tenant (seq_sched (k + 1) m) (run_sched tenant [k, k, k] s) := rfl
    have hstep := step_triple_observe tenant s k 1 (hth k (by omega)) hreg
    have hth2 : ∀ i, k + 1 ≤ i →
        (run_sched tenant [k, k, k] s).threads i = ⟨TPC.checking, none⟩ := by
      intro i hi
      rw [hstep]
      show updFn s.threads k ⟨TPC.done, some 1⟩ i = ⟨TPC.checking, none⟩
      rw [updFn_other s.threads k i _ (by omega)]
      exact hth i (by omega)
    have hreg2 : lookupA (run_sched tenant [k, k, k] s).reg tenant = some 1 := by
      rw [hstep]
      exact hreg
    have key := ih (k + 1) (run_sched tenant [k, k, k] s) hreg2 hth2
    rw [hsplit]
    have hregs : (run_sched tenant [k, k, k] s).reg = s.reg := by rw [hstep]
    have hcrs : (run_sched tenant [k, k, k] s).created = s.created := by rw [hstep]
    refine ⟨key.1.trans hregs, key.2.1.trans hcrs, ?_, ?_, ?_⟩
    · intro i hi
      rw [key.2.2.1 i (by omega), hstep]
      show updFn s.threads k ⟨TPC.done, some 1⟩ i = s.threads i
      exact updFn_other s.threads k i _ (by omega)
    · intro i h1 h2
      by_cases hik : i = k
      · subst hik
        rw [key.2.2.1 i (by omega), hstep]
        exact updFn_self s.threads i _
      · exact key.2.2.2.1 i (by omega) (by omega)
    · intro i hi
      exact key.2.2.2.2 i (by omega)

/-- C1, counterexample: the claim that N concurrent first-time
validations of a newly seen tenant create exactly one adapter, with all
callers observing the same adapter instance, is false for the unlocked
check-then-insert of `validate_token` (lines 155-174): under the
interleaving in which both threads pass the membership test before either
inserts, two adapter objects are constructed and the two callers end up
holding different adapters. -/
theorem adapter_creation_race :
    ¬ (∀ sched : List Nat, (∀ i ∈ sched, i < 2) →
        (∀ i, i < 2 → ((run_sched "t" sched c1_init).threads i).pc = TPC.done) →
        (run_sched "t" sched c1_init).created = 1
        ∧ ((run_sched "t" sched c1_init).threads 0).obs =
            ((run_sched "t" sched c1_init).threads 1).obs) := by
  intro h
  have hbad := h [0, 1, 0, 0, 1, 1] (by decide) (by decide)
  have hc : (run_sched "t" [0, 1, 0, 0, 1, 1] c1_init).created = 2 := by decide
  have : (1 : Nat) = 2 := hbad.1.symm.trans hc
  exact absurd this (by decide)

/-- C1, amended: under the unlocked check-then-insert, concurrent
first-time validations may construct several adapters for one tenant
with callers observing different instances (`adapter_creation_race`);
what does hold is that whenever the n first-use validations are
serialized — each request completes its membership test, insert and
lookup before the next begins — exactly one adapter is constructed and
every caller observes that same adapter (id 1). -/
theorem adapter_creation_serialized (n : Nat) (hn : 0 < n) :
    (run_sched "t" (seq_sched 0 n) c1_init).created = 1
    ∧ ∀ i, i < n →
        (run_sched "t" (seq_sched 0 n) c1_init).threads i = ⟨TPC.done, some 1⟩ := by
  obtain ⟨m, rfl⟩ : ∃ m, n = m + 1 := ⟨n - 1, by omega⟩
  have hsplit : run_sched "t" (seq_sched 0 (m + 1)) c1_init =
      run_sched "t" (seq_sched 1 m) (run_sched "t" [0, 0, 0] c1_init) := rfl
  have hstep := step_triple_create "t" c1_init 0 rfl (by decide)
  have hreg2 : lookupA (run_sched "t" [0, 0, 0] c1_init).reg "t" = some 1 := by
    rw [hstep]
    exact lookupA_insertA_self _ _ _
  have hth2 : ∀ i, 1 ≤ i →
      (run_sched "t" [0, 0, 0] c1_init).threads i = ⟨TPC.checking, none⟩ := by
    intro i hi
    rw [hstep]
    show updFn c1_init.threads 0 ⟨TPC.done, some 1⟩ i = ⟨TPC.checking, none⟩
    rw [updFn_other _ 0 i _ (by omega)]
    rfl
  have key := seq_sched_run "t" m 1 (run_sched "t" [0, 0, 0] c1_init) hreg2 hth2
  have hcr : (run_sched "t" [0, 0, 0] c1_init).created = 1 := by
    rw [hstep]
    rfl
  rw [hsplit]
  refine ⟨key.2.1.trans hcr, ?_⟩
  intro i hi
  by_cases hi0 : i = 0
  · subst hi0
    rw [key.2.2.1 0 (by omega), hstep]
    exact updFn_self c1_init.threads 0 _
  · exact key.2.2.2.1 i (by omega) (by omega)

/-- Closed instance of `adapter_creation_serialized`: three serialized
first-use validations of tenant `t` create exactly one adapter, and all
three callers observe adapter 1. -/
theorem adapter_creation_serialized_check :
    (run_sched "t" (seq_sched 0 3) c1_init).created = 1
    ∧ (run_sched "t" (seq_sched 0 3) c1_init).threads 0 = ⟨TPC.done, some 1⟩
    ∧ (run_sched "t" (seq_sched 0 3) c1_init).threads 1 = ⟨TPC.done, some 1⟩
    ∧ (run_sched "t" (seq_sched 0 3) c1_init).threads 2 = ⟨TPC.done, some 1⟩ := by
  have h := adapter_creation_serialized 3 (by decide)
  exact ⟨h.1, h.2 0 (by decide), h.2 1 (by decide), h.2 2 (by decide)⟩
